import Mathlib

/-!
Shallow embedding of the OuluWebCams traffic-camera front end.

Two source files are modelled:
* `js.js` — the class-based controller `OuluWebCams`;
* the unnamed jQuery variant (`onpageload` / `conditionalRender`).

Modelling conventions:
* Timestamps are epoch milliseconds (`Int`); `new Date(x) > new Date(y)`
  comparisons become integer comparisons.
* Coordinates are opaque to every modelled code path, so `lat`/`lon` are `Int`.
* JavaScript's stable `Array.prototype.sort` is modelled by the stable
  `List.insertionSort`; the comparator `(a, b) => b.measuredTime - a.measuredTime`
  is the relation `b.measuredTime ≤ a.measuredTime` (descending, ties stable).
* The external Turf.js geometry library is an oracle parameter that may throw
  (`Except Unit Bool`); DOM image loading success is an oracle `Nat → Camera → Bool`.
* `sessionStorage` is a map `String → Option String`.
-/

/-- A preset entry of one camera station, as returned by the GetAllCameras
GraphQL query (`presets{presetId,presentationName,imageUrl,measuredTime}`). -/
structure RawPreset where
  presetId : String
  presentationName : String
  imageUrl : String
  measuredTime : Int
  deriving DecidableEq, Repr

/-- A camera station from the API response
(`cameras{cameraId,name,lat,lon,presets{...}}`). -/
structure RawStation where
  cameraId : String
  name : String
  lat : Int
  lon : Int
  presets : List RawPreset
  deriving DecidableEq, Repr

/-- A processed camera preset as built in `processCameras`: the preset fields
spread together with the station fields, a municipality and an age string. -/
structure Camera where
  presetId : String
  presentationName : String
  imageUrl : String
  measuredTime : Int
  stationName : String
  cameraId : String
  lat : Int
  lon : Int
  municipality : String
  age : String
  deriving DecidableEq, Repr

/-- The geometry `type` of a GeoJSON feature (`'Polygon'`, `'MultiPolygon'`,
or anything else). -/
inductive GeometryType where
  | Polygon
  | MultiPolygon
  | Other
  deriving DecidableEq, Repr

/-- A GeoJSON feature of the municipality data set: its geometry (`none` models a
null/absent `feature.geometry`) and its `properties.nimi` value (`none` models an
absent property). -/
structure Feature where
  geometry : Option GeometryType
  nimi : Option String
  deriving DecidableEq, Repr

/-- The `this.config` object of the controller (the DOM-independent fields). -/
structure Config where
  cameraCount : Nat
  cycling : Bool
  cyclingInterval : Nat
  cyclingMode : String
  selectedMunicipality : String
  selectedStation : String
  dropOldCameras : Bool
  deriving DecidableEq, Repr

/-- The controller state relevant to the modelled methods: the camera lists,
the per-slot displayed images (`this.currentImages`, a sparse array modelled as
`Nat → Option Camera`), the cycle index, the locked slot set and the config. -/
structure OuluWebCams where
  cameras : List Camera
  allCameras : List Camera
  currentImages : Nat → Option Camera
  currentCycleIndex : Nat
  lockedCameras : List Nat
  config : Config

/-- Four hours in milliseconds, the staleness cutoff (`4 * 60 * 60 * 1000`). -/
def fourHoursMs : Int := 4 * 60 * 60 * 1000

/-- `filterCameras(cameras)`: when `config.dropOldCameras` is set, keep only
cameras with `measuredTime > Date.now() - 4h` (strict), then stable-sort by
`measuredTime` descending (`(a, b) => b.measuredTime - a.measuredTime`). -/
def filterCameras (now : Int) (dropOldCameras : Bool) (cameras : List Camera) :
    List Camera :=
  let filtered :=
    if dropOldCameras then
      cameras.filter (fun camera => now - fourHoursMs < camera.measuredTime)
    else cameras
  List.insertionSort (fun a b => b.measuredTime ≤ a.measuredTime) filtered

/-- `getImageAge(timestamp)`: human-readable age. `Math.floor` of a float
quotient is `Int.fdiv`; the JavaScript `%` remainder (sign of the dividend)
is `Int.tmod`. -/
def getImageAge (now timestamp : Int) : String :=
  let diffMs := now - timestamp
  let diffHours := Int.fdiv diffMs (1000 * 60 * 60)
  let diffMins := Int.fdiv (Int.tmod diffMs (1000 * 60 * 60)) (1000 * 60)
  if diffHours > 0 then s!"{diffHours}h {diffMins}m ago"
  else s!"{diffMins}m ago"

/-- The loop of `getMunicipalityForCamera`: walk the features in order; for a
feature whose geometry is a `Polygon` or `MultiPolygon`, ask the Turf oracle
whether the point lies inside (the oracle throwing aborts the whole walk, like
an exception escaping the `for` loop into the `catch`); other features are
skipped. Returns the first containing feature, if any. -/
def municipalityLookupLoop (turfInside : Int → Int → Feature → Except Unit Bool)
    (lat lon : Int) : List Feature → Except Unit (Option Feature)
  | [] => Except.ok none
  | f :: fs =>
    match f.geometry with
    | some GeometryType.Polygon =>
      match turfInside lat lon f with
      | Except.error e => Except.error e
      | Except.ok true => Except.ok (some f)
      | Except.ok false => municipalityLookupLoop turfInside lat lon fs
    | some GeometryType.MultiPolygon =>
      match turfInside lat lon f with
      | Except.error e => Except.error e
      | Except.ok true => Except.ok (some f)
      | Except.ok false => municipalityLookupLoop turfInside lat lon fs
    | _ => municipalityLookupLoop turfInside lat lon fs

/-- `getMunicipalityForCamera(lat, lon)`: `'Unknown'` when `municipalityData`
is null; otherwise the first containing feature's `properties.nimi || 'Unknown'`
(the `||` maps both an absent and an empty-string `nimi` to `'Unknown'`);
`'Unknown'` when no feature matches or when Turf throws (the `catch` branch). -/
def getMunicipalityForCamera (turfInside : Int → Int → Feature → Except Unit Bool)
    (lat lon : Int) (municipalityData : Option (List Feature)) : String :=
  match municipalityData with
  | none => "Unknown"
  | some features =>
    match municipalityLookupLoop turfInside lat lon features with
    | Except.error _ => "Unknown"
    | Except.ok none => "Unknown"
    | Except.ok (some f) =>
      match f.nimi with
      | none => "Unknown"
      | some s => if s = "" then "Unknown" else s

/-- The flattening step of `processCameras(rawCameras)`: every preset of every
station becomes one processed camera carrying the station's fields and the
computed municipality. -/
def processCamerasRaw (turfInside : Int → Int → Feature → Except Unit Bool)
    (now : Int) (municipalityData : Option (List Feature))
    (rawCameras : List RawStation) : List Camera :=
  rawCameras.flatMap (fun station =>
    station.presets.map (fun preset =>
      { presetId := preset.presetId
        presentationName := preset.presentationName
        imageUrl := preset.imageUrl
        measuredTime := preset.measuredTime
        stationName := station.name
        cameraId := station.cameraId
        lat := station.lat
        lon := station.lon
        municipality :=
          getMunicipalityForCamera turfInside station.lat station.lon municipalityData
        age := getImageAge now preset.measuredTime }))

/-- `processCameras(rawCameras)`: the value stored into `this.cameras`, namely
`filterCameras` applied to the flattened processed presets. -/
def processCameras (turfInside : Int → Int → Feature → Except Unit Bool)
    (now : Int) (municipalityData : Option (List Feature))
    (dropOldCameras : Bool) (rawCameras : List RawStation) : List Camera :=
  filterCameras now dropOldCameras
    (processCamerasRaw turfInside now municipalityData rawCameras)

/-- `[...new Set(xs)]`: drop duplicates keeping the first occurrence of each
element, in insertion order. -/
def setDedup (l : List String) : List String :=
  l.foldl (fun acc x => if x ∈ acc then acc else acc ++ [x]) []

/-- The municipality option values appended by `populateSelectors`:
`[...new Set(this.cameras.map(c => c.municipality))].sort()` (the static
`All Municipalities` placeholder option has the distinct value `""`). -/
def municipalityOptions (cameras : List Camera) : List String :=
  List.insertionSort (fun a b => a ≤ b) (setDedup (cameras.map (·.municipality)))

/-- The station option values appended by `populateSelectors`:
`[...new Set(this.cameras.map(c => c.stationName))].sort()`. -/
def stationOptions (cameras : List Camera) : List String :=
  List.insertionSort (fun a b => a ≤ b) (setDedup (cameras.map (·.stationName)))

/-- `getFilteredCameras()`: in `municipality` mode with a truthy (non-empty)
selection, keep only cameras of that municipality; in `station` mode with a
truthy selection, keep only cameras of that station; otherwise return a copy
of `this.cameras` unchanged. -/
def getFilteredCameras (config : Config) (cameras : List Camera) : List Camera :=
  if config.cyclingMode = "municipality" then
    if config.selectedMunicipality ≠ "" then
      cameras.filter (fun c => c.municipality = config.selectedMunicipality)
    else cameras
  else if config.cyclingMode = "station" then
    if config.selectedStation ≠ "" then
      cameras.filter (fun c => c.stationName = config.selectedStation)
    else cameras
  else cameras

/-- The standard grid sizes of `getOptimalGridSize`. -/
def standardGridSizes : List Nat := [1, 2, 4, 6, 8, 12, 16]

/-- `getOptimalGridSize(cameraCount)`: the first standard grid size with
`cameraCount <= gridSize`, else the max grid size 16. -/
def getOptimalGridSize (cameraCount : Nat) : Nat :=
  match standardGridSizes.find? (fun gridSize => cameraCount ≤ gridSize) with
  | some gridSize => gridSize
  | none => 16

/-- One iteration of the `loadCameraImages` loop for slot `i`: a locked slot
that already shows an image (`this.currentImages[i]` truthy) is skipped;
otherwise the camera at `(currentCycleIndex + i) % availableCameras.length` is
loaded into the slot. `success i cam` abstracts `loadSingleCamera` succeeding
(the container exists, is not a placeholder, and the image load resolves);
on failure `this.currentImages[i]` is left as it was. -/
def loadSlot (success : Nat → Camera → Bool) (lockedCameras : List Nat)
    (currentCycleIndex : Nat) (availableCameras : List Camera)
    (images : Nat → Option Camera) (i : Nat) : Nat → Option Camera :=
  if lockedCameras.contains i ∧ (images i).isSome then images
  else
    match availableCameras.get? ((currentCycleIndex + i) % availableCameras.length) with
    | some camera =>
      if success i camera then Function.update images i (some camera) else images
    | none => images

/-- `loadCameraImages()`: for each slot `i` below
`min(config.cameraCount, availableCameras.length)` run the slot update in
order; returns the final `this.currentImages`. -/
def loadCameraImages (success : Nat → Camera → Bool) (st : OuluWebCams) :
    Nat → Option Camera :=
  let availableCameras := getFilteredCameras st.config st.cameras
  let actualCameraCount := min st.config.cameraCount availableCameras.length
  (List.range actualCameraCount).foldl
    (loadSlot success st.lockedCameras st.currentCycleIndex availableCameras)
    st.currentImages

/-- One iteration of the `updateCameraImages` loop for slot `i`: when the slot
holds an image and is not locked, the camera with the same `presetId` is looked
up in `this.cameras` and reloaded (`success` abstracts the container check and
`loadSingleCamera` as in `loadSlot`); locked or empty slots are untouched. -/
def updateSlot (success : Nat → Camera → Bool) (lockedCameras : List Nat)
    (cameras : List Camera) (images : Nat → Option Camera) (i : Nat) :
    Nat → Option Camera :=
  match images i with
  | some currentCamera =>
    if lockedCameras.contains i then images
    else
      match cameras.find? (fun c => c.presetId == currentCamera.presetId) with
      | some updatedCamera =>
        if success i updatedCamera then Function.update images i (some updatedCamera)
        else images
      | none => images
  | none => images

/-- `updateCameraImages()`: the periodic refresh; for each slot `i` below
`config.cameraCount` run the update in order. -/
def updateCameraImages (success : Nat → Camera → Bool) (st : OuluWebCams) :
    Nat → Option Camera :=
  (List.range st.config.cameraCount).foldl
    (updateSlot success st.lockedCameras st.cameras)
    st.currentImages

/-- `cycleCameras()`: with no available cameras, return immediately (state
unchanged); otherwise advance `currentCycleIndex` by `config.cameraCount`
modulo the filtered list's length, then reload the unlocked slots. -/
def cycleCameras (success : Nat → Camera → Bool) (st : OuluWebCams) : OuluWebCams :=
  let availableCameras := getFilteredCameras st.config st.cameras
  if availableCameras.length = 0 then st
  else
    let st' := { st with
      currentCycleIndex :=
        (st.currentCycleIndex + st.config.cameraCount) % availableCameras.length }
    { st' with currentImages := loadCameraImages success st' }

/-- The `minCycleTimes` table of `updateCycleTimeOptions`, with the
`|| 10000` default for camera counts not in the table. -/
def minCycleTimes (cameraCount : Nat) : Nat :=
  if cameraCount = 1 then 2000
  else if cameraCount = 2 then 3000
  else if cameraCount = 4 then 5000
  else if cameraCount = 6 then 8000
  else if cameraCount = 8 then 10000
  else if cameraCount = 12 then 15000
  else if cameraCount = 16 then 20000
  else 10000

/-- `updateCycleTimeOptions()`: `currentValue` is the interval select's value;
when it is below the minimum for the camera count, both the select and
`config.cyclingInterval` are set to that minimum, otherwise
`config.cyclingInterval` is left as it was. Returns the new
`config.cyclingInterval`. -/
def updateCycleTimeOptions (cameraCount currentValue cyclingInterval : Nat) : Nat :=
  if currentValue < minCycleTimes cameraCount then minCycleTimes cameraCount
  else cyclingInterval

/-- The URL fetched by `loadMunicipalityData()`. -/
def municipalityDataUrl : String := "finnish-municipalities-wgs84.geojson"

/-- The URL fetched (POST) by `loadCameras()`. -/
def camerasApiUrl : String := "https://api.oulunliikenne.fi/proxy/graphql"

/-- The data-fetch requests issued by `init()` in order: `loadMunicipalityData`
then `loadCameras` (image loads excluded). -/
def initDataFetches : List String := [municipalityDataUrl, camerasApiUrl]

/-- The staleness filter of the jQuery variant's `conditionalRender`: a preset
is kept in `camerasInOulu_noOld` when
`(now.getTime() - date.getTime()) / 3600000 < 4`; over the reals the float
comparison `diff / 3600000 < 4` is exactly `diff < 4 * 3600000`. -/
def camerasInOulu_noOld (now : Int) (camerasInOulu_Clean : List RawPreset) :
    List RawPreset :=
  camerasInOulu_Clean.filter (fun element => now - element.measuredTime < fourHoursMs)

/-- The window-reset check at the top of the jQuery variant's `onpageload`
loop: when `sessionStorage.getItem("camerasInOulu") <= end` (the stored count,
coerced to a number, compared with the window's end), the window resets to
`start = 0, end = 4`; otherwise it is unchanged. -/
def onpageloadWindowReset (storedCount startNum endNum : Int) : Int × Int :=
  if storedCount ≤ endNum then (0, 4) else (startNum, endNum)

/-- `sessionStorage.setItem(k, v)` on a storage map. -/
def sessionStorageSetItem (storage : String → Option String) (k v : String) :
    String → Option String :=
  Function.update storage k (some v)

/-- The `sessionStorage` effect of the jQuery variant's `conditionalRender`
success handler:
`sessionStorage.setItem("camerasInOulu", camerasInOulu_noOld.length)` (the
number is coerced to a string by the Storage API). -/
def conditionalRenderStorage (storage : String → Option String) (now : Int)
    (camerasInOulu_Clean : List RawPreset) : String → Option String :=
  sessionStorageSetItem storage "camerasInOulu"
    (toString (camerasInOulu_noOld now camerasInOulu_Clean).length)

/-! ## Helper lemmas -/

/-- Closed form of `getOptimalGridSize`: a chain of interval tests. -/
theorem getOptimalGridSize_eq (n : Nat) :
    getOptimalGridSize n =
      if n ≤ 1 then 1 else if n ≤ 2 then 2 else if n ≤ 4 then 4
      else if n ≤ 6 then 6 else if n ≤ 8 then 8 else if n ≤ 12 then 12
      else 16 := by
  unfold getOptimalGridSize standardGridSizes
  simp only [List.find?_cons, List.find?_nil]
  by_cases h1 : n ≤ 1 <;> by_cases h2 : n ≤ 2 <;> by_cases h4 : n ≤ 4 <;>
    by_cases h6 : n ≤ 6 <;> by_cases h8 : n ≤ 8 <;> by_cases h12 : n ≤ 12 <;>
    by_cases h16 : n ≤ 16 <;>
    simp [h1, h2, h4, h6, h8, h12, h16] <;> omega

/-! ## C10 -/

set_option maxHeartbeats 1600000 in
/-- C10: grid sizing picks the tightest standard layout — for every camera
count `n`, `getOptimalGridSize n` is the smallest element of
`[1, 2, 4, 6, 8, 12, 16]` that is `≥ n` (when `n ≤ 16`), is `16` for every
`n > 16`, is always at least `min n 16`, and the function is monotone. -/
theorem getOptimalGridSize_spec (n : Nat) :
    (n ≤ 16 → getOptimalGridSize n ∈ standardGridSizes ∧ n ≤ getOptimalGridSize n ∧
      ∀ g ∈ standardGridSizes, n ≤ g → getOptimalGridSize n ≤ g)
    ∧ (16 < n → getOptimalGridSize n = 16)
    ∧ min n 16 ≤ getOptimalGridSize n
    ∧ ∀ m, n ≤ m → getOptimalGridSize n ≤ getOptimalGridSize m := by
  have hn := getOptimalGridSize_eq n
  refine ⟨fun h16 => ⟨?_, ?_, ?_⟩, fun h => ?_, ?_, fun m hm => ?_⟩
  · rw [hn]; split_ifs <;> decide
  · rw [hn]; split_ifs <;> omega
  · intro g hg hng
    simp only [standardGridSizes, List.mem_cons, List.not_mem_nil, or_false] at hg
    rw [hn]
    rcases hg with rfl | rfl | rfl | rfl | rfl | rfl | rfl <;> split_ifs <;> omega
  · rw [hn]; split_ifs <;> omega
  · rw [hn]; split_ifs <;> omega
  · rw [hn, getOptimalGridSize_eq m]; split_ifs <;> omega

/-- C10 witness: concrete instances of every part of the grid-size theorem. -/
theorem getOptimalGridSize_spec_witness :
    getOptimalGridSize 5 ∈ standardGridSizes ∧ 5 ≤ getOptimalGridSize 5
    ∧ getOptimalGridSize 5 ≤ 6 ∧ getOptimalGridSize 17 = 16
    ∧ min 3 16 ≤ getOptimalGridSize 3
    ∧ getOptimalGridSize 3 ≤ getOptimalGridSize 7 := by
  obtain ⟨ha, hb, hc⟩ := (getOptimalGridSize_spec 5).1 (by decide)
  exact ⟨ha, hb, hc 6 (by decide) (by decide),
    (getOptimalGridSize_spec 17).2.1 (by decide),
    (getOptimalGridSize_spec 3).2.2.1,
    (getOptimalGridSize_spec 3).2.2.2 7 (by decide)⟩

/-! ## C9 -/

/-- C9: the cycling interval respects the per-count minimum — with the select
value and `config.cyclingInterval` in sync (as the change handlers keep them),
after `updateCycleTimeOptions` the interval is at least `minCycleTimes` for the
camera count, a too-small value is replaced by the minimum, and the table is
2000/3000/5000/8000/10000/15000/20000 for 1/2/4/6/8/12/16 cameras with a
10000 default otherwise. -/
theorem updateCycleTimeOptions_spec (cameraCount interval : Nat) :
    minCycleTimes cameraCount ≤ updateCycleTimeOptions cameraCount interval interval
    ∧ (interval < minCycleTimes cameraCount →
        updateCycleTimeOptions cameraCount interval interval =
          minCycleTimes cameraCount)
    ∧ minCycleTimes 1 = 2000 ∧ minCycleTimes 2 = 3000 ∧ minCycleTimes 4 = 5000
    ∧ minCycleTimes 6 = 8000 ∧ minCycleTimes 8 = 10000 ∧ minCycleTimes 12 = 15000
    ∧ minCycleTimes 16 = 20000
    ∧ (cameraCount ∉ ([1, 2, 4, 6, 8, 12, 16] : List Nat) →
        minCycleTimes cameraCount = 10000) := by
  refine ⟨?_, fun h => ?_, rfl, rfl, rfl, rfl, rfl, rfl, rfl, fun h => ?_⟩
  · unfold updateCycleTimeOptions; split_ifs <;> omega
  · simp [updateCycleTimeOptions, h]
  · simp only [List.mem_cons, List.not_mem_nil, or_false, not_or] at h
    obtain ⟨h1, h2, h4, h6, h8, h12, h16⟩ := h
    simp [minCycleTimes, h1, h2, h4, h6, h8, h12, h16]

/-- C9 witness: with 4 cameras a selected 3000 ms interval is raised to the
5000 ms minimum, and an off-table count uses the 10000 ms default. -/
theorem updateCycleTimeOptions_spec_witness :
    minCycleTimes 4 ≤ updateCycleTimeOptions 4 3000 3000
    ∧ updateCycleTimeOptions 4 3000 3000 = minCycleTimes 4
    ∧ minCycleTimes 3 = 10000 := by
  obtain ⟨-, -, -, -, -, -, -, -, -, hdef⟩ := updateCycleTimeOptions_spec 3 0
  exact ⟨(updateCycleTimeOptions_spec 4 3000).1,
    (updateCycleTimeOptions_spec 4 3000).2.1 (by decide), hdef (by decide)⟩

/-! ## C3 -/

/-- C3: mode-gated filtering — `getFilteredCameras` filters by the selected
municipality in `municipality` mode with a non-empty selection, by the selected
station in `station` mode with a non-empty selection, and returns the list
unchanged in every other case (including an empty selection). -/
theorem getFilteredCameras_spec (config : Config) (cameras : List Camera) :
    (config.cyclingMode = "municipality" → config.selectedMunicipality ≠ "" →
      getFilteredCameras config cameras =
        cameras.filter (fun c => c.municipality = config.selectedMunicipality))
    ∧ (config.cyclingMode = "station" → config.selectedStation ≠ "" →
      getFilteredCameras config cameras =
        cameras.filter (fun c => c.stationName = config.selectedStation))
    ∧ ((config.cyclingMode ≠ "municipality" ∨ config.selectedMunicipality = "") →
       (config.cyclingMode ≠ "station" ∨ config.selectedStation = "") →
      getFilteredCameras config cameras = cameras) := by
  refine ⟨fun hm hsel => ?_, fun hs hsel => ?_, fun hm hs => ?_⟩
  · simp [getFilteredCameras, hm, hsel]
  · have hms : config.cyclingMode ≠ "municipality" := by rw [hs]; decide
    simp [getFilteredCameras, hs, hms, hsel]
  · unfold getFilteredCameras
    split_ifs with h1 h2 h3 h4 <;> try rfl
    · rcases hm with hm | hm
      · exact absurd h1 hm
      · exact absurd hm h2
    · rcases hs with hs | hs
      · exact absurd h3 hs
      · exact absurd hs h4

/-- Concrete camera in Oulu used by the C3 witness. -/
def c3camOulu : Camera :=
  { presetId := "C0155200", presentationName := "Tienpinta", imageUrl := "u1",
    measuredTime := 1000, stationName := "vt22_Oulu_Konttisenkangas", cameraId := "C01552",
    lat := 65, lon := 25, municipality := "Oulu", age := "1m ago" }

/-- Concrete camera in Ii used by the C3 witness. -/
def c3camIi : Camera :=
  { presetId := "C0160300", presentationName := "Pohjoiseen", imageUrl := "u2",
    measuredTime := 2000, stationName := "vt4_Ii_Kauppila", cameraId := "C01603",
    lat := 66, lon := 25, municipality := "Ii", age := "2m ago" }

/-- Config in municipality mode with Oulu selected, for the C3 witness. -/
def c3cfgMunicipality : Config :=
  { cameraCount := 4, cycling := false, cyclingInterval := 5000,
    cyclingMode := "municipality", selectedMunicipality := "Oulu",
    selectedStation := "", dropOldCameras := true }

/-- Config in station mode with a station selected, for the C3 witness. -/
def c3cfgStation : Config :=
  { cameraCount := 4, cycling := false, cyclingInterval := 5000,
    cyclingMode := "station", selectedMunicipality := "",
    selectedStation := "vt4_Ii_Kauppila", dropOldCameras := true }

/-- Config in `all` mode, for the C3 witness. -/
def c3cfgAll : Config :=
  { cameraCount := 4, cycling := false, cyclingInterval := 5000,
    cyclingMode := "all", selectedMunicipality := "",
    selectedStation := "", dropOldCameras := true }

/-- C3 witness: the three gating cases evaluated on two concrete cameras. -/
theorem getFilteredCameras_spec_witness :
    getFilteredCameras c3cfgMunicipality [c3camOulu, c3camIi] = [c3camOulu]
    ∧ getFilteredCameras c3cfgStation [c3camOulu, c3camIi] = [c3camIi]
    ∧ getFilteredCameras c3cfgAll [c3camOulu, c3camIi] = [c3camOulu, c3camIi] := by
  refine ⟨?_, ?_, ?_⟩
  · rw [(getFilteredCameras_spec c3cfgMunicipality [c3camOulu, c3camIi]).1
      rfl (by decide)]
    decide
  · rw [(getFilteredCameras_spec c3cfgStation [c3camOulu, c3camIi]).2.1
      rfl (by decide)]
    decide
  · exact (getFilteredCameras_spec c3cfgAll [c3camOulu, c3camIi]).2.2
      (Or.inl (by decide)) (Or.inl (by decide))

/-! ## C1 -/

/-- C1: the freshness filter — with `dropOldCameras` enabled, `filterCameras`
returns exactly the cameras whose `measuredTime` is strictly within the last
four hours of `now` (as a permutation of the filtered input, hence the same
multiset), sorted by `measuredTime` newest first; and the jQuery variant keeps
a preset in `camerasInOulu_noOld` under the same strictly-less-than-four-hours
cutoff. -/
theorem filterCameras_freshness (now : Int) (cameras : List Camera)
    (presets : List RawPreset) :
    List.Perm (filterCameras now true cameras)
      (cameras.filter (fun camera => now - fourHoursMs < camera.measuredTime))
    ∧ (∀ c, c ∈ filterCameras now true cameras ↔
        c ∈ cameras ∧ now - fourHoursMs < c.measuredTime)
    ∧ List.Sorted (fun a b => b.measuredTime ≤ a.measuredTime)
        (filterCameras now true cameras)
    ∧ (∀ p, p ∈ camerasInOulu_noOld now presets ↔
        p ∈ presets ∧ now - p.measuredTime < fourHoursMs) := by
  have hunfold : filterCameras now true cameras =
      List.insertionSort (fun a b => b.measuredTime ≤ a.measuredTime)
        (cameras.filter (fun camera => now - fourHoursMs < camera.measuredTime)) := by
    simp [filterCameras]
  have hperm := hunfold ▸
    List.perm_insertionSort (fun a b : Camera => b.measuredTime ≤ a.measuredTime)
      (cameras.filter (fun camera => now - fourHoursMs < camera.measuredTime))
  refine ⟨hperm, fun c => ?_, ?_, fun p => ?_⟩
  · rw [hperm.mem_iff, List.mem_filter]
    simp
  · haveI : IsTotal Camera (fun a b => b.measuredTime ≤ a.measuredTime) :=
      ⟨fun a b => le_total b.measuredTime a.measuredTime⟩
    haveI : IsTrans Camera (fun a b => b.measuredTime ≤ a.measuredTime) :=
      ⟨fun _ _ _ hab hbc => le_trans hbc hab⟩
    rw [hunfold]
    exact List.sorted_insertionSort _ _
  · rw [camerasInOulu_noOld, List.mem_filter]
    simp

/-- Fresh camera (measured exactly at the four-hour boundary plus nothing,
strictly inside the window) for the C1 witness. -/
def c1camFresh : Camera :=
  { presetId := "C0155201", presentationName := "Fresh", imageUrl := "u1",
    measuredTime := 14400000, stationName := "S", cameraId := "C01552",
    lat := 65, lon := 25, municipality := "Oulu", age := "0m ago" }

/-- Stale camera (measured exactly four hours before `now`, dropped by the
strict cutoff) for the C1 witness. -/
def c1camStale : Camera :=
  { presetId := "C0155202", presentationName := "Stale", imageUrl := "u2",
    measuredTime := 0, stationName := "S", cameraId := "C01552",
    lat := 65, lon := 25, municipality := "Oulu", age := "4h 0m ago" }

/-- Fresh raw preset for the jQuery part of the C1 witness. -/
def c1preset : RawPreset :=
  { presetId := "C0160301", presentationName := "P", imageUrl := "u3",
    measuredTime := 14390000 }

/-- C1 witness: at `now = 14400000` the camera measured at time 0 (exactly four
hours old) is dropped, the strictly fresher one is kept, and the jQuery filter
keeps a preset 10 seconds inside the window. -/
theorem filterCameras_freshness_witness :
    c1camFresh ∈ filterCameras 14400000 true [c1camStale, c1camFresh]
    ∧ c1camStale ∉ filterCameras 14400000 true [c1camStale, c1camFresh]
    ∧ c1preset ∈ camerasInOulu_noOld 14400000 [c1preset] := by
  refine ⟨?_, fun h => ?_, ?_⟩
  · exact ((filterCameras_freshness 14400000 [c1camStale, c1camFresh] []).2.1
      c1camFresh).mpr ⟨by decide, by decide⟩
  · exact absurd (((filterCameras_freshness 14400000 [c1camStale, c1camFresh]
      []).2.1 c1camStale).mp h).2 (by decide)
  · exact ((filterCameras_freshness 14400000 [] [c1preset]).2.2.2 c1preset).mpr
      ⟨by decide, by decide⟩

/-! ## C4 -/

/-- C4: the cycling rotation — on an empty filtered view `cycleCameras` is a
no-op on the whole state; on a non-empty view it sets `currentCycleIndex` to
`(currentCycleIndex + cameraCount) % length`, which is always `< length`; and
the jQuery variant's loop resets its window to `[0, 4)` whenever the window end
passes the stored camera count. -/
theorem cycleCameras_spec (success : Nat → Camera → Bool) (st : OuluWebCams) :
    (getFilteredCameras st.config st.cameras = [] → cycleCameras success st = st)
    ∧ (getFilteredCameras st.config st.cameras ≠ [] →
        (cycleCameras success st).currentCycleIndex =
          (st.currentCycleIndex + st.config.cameraCount) %
            (getFilteredCameras st.config st.cameras).length
        ∧ (cycleCameras success st).currentCycleIndex <
            (getFilteredCameras st.config st.cameras).length)
    ∧ (∀ storedCount startNum endNum : Int, storedCount < endNum →
        onpageloadWindowReset storedCount startNum endNum = (0, 4)) := by
  refine ⟨fun h => ?_, fun h => ?_, fun c s e hce => ?_⟩
  · unfold cycleCameras
    rw [h]
    simp
  · have hlen : (getFilteredCameras st.config st.cameras).length ≠ 0 := by
      simpa [List.length_eq_zero] using h
    constructor
    · unfold cycleCameras
      rw [if_neg hlen]
    · unfold cycleCameras
      rw [if_neg hlen]
      exact Nat.mod_lt _ (Nat.pos_of_ne_zero hlen)
  · unfold onpageloadWindowReset
    rw [if_pos (le_of_lt hce)]

/-- Camera list entry for the C4 witness. -/
def c4cam : Camera :=
  { presetId := "C0160302", presentationName := "P", imageUrl := "u",
    measuredTime := 0, stationName := "S", cameraId := "C01603",
    lat := 65, lon := 25, municipality := "Oulu", age := "0m ago" }

/-- Controller state with an empty camera list for the C4 witness. -/
def c4stEmpty : OuluWebCams :=
  { cameras := [], allCameras := [], currentImages := fun _ => none,
    currentCycleIndex := 7, lockedCameras := [], config := c3cfgAll }

/-- Controller state with one camera for the C4 witness. -/
def c4stOne : OuluWebCams :=
  { cameras := [c4cam], allCameras := [c4cam], currentImages := fun _ => none,
    currentCycleIndex := 3, lockedCameras := [], config := c3cfgAll }

/-- C4 witness: an empty view leaves the state untouched, a one-camera view
wraps the index `(3 + 4) % 1 = 0 < 1`, and the jQuery window resets when the
stored count 3 is below the window end 8. -/
theorem cycleCameras_spec_witness :
    cycleCameras (fun _ _ => true) c4stEmpty = c4stEmpty
    ∧ (cycleCameras (fun _ _ => true) c4stOne).currentCycleIndex = 0
    ∧ (cycleCameras (fun _ _ => true) c4stOne).currentCycleIndex < 1
    ∧ onpageloadWindowReset 3 4 8 = (0, 4) := by
  have h1 := (cycleCameras_spec (fun _ _ => true) c4stOne).2.1 (by decide)
  have h2 := (cycleCameras_spec (fun _ _ => true) c4stOne).2.1 (by decide)
  refine ⟨(cycleCameras_spec (fun _ _ => true) c4stEmpty).1 (by decide), ?_, ?_, ?_⟩
  · rw [h1.1]; decide
  · have h3 : (getFilteredCameras c4stOne.config c4stOne.cameras).length = 1 := by
      decide
    exact h3 ▸ h2.2
  · exact (cycleCameras_spec (fun _ _ => true) c4stEmpty).2.2 3 4 8 (by decide)

/-! ## C8 -/

/-- A fold over slot updates never changes slot `i` when every single step
preserves the value at `i`. -/
theorem foldl_slot_invariant (images : Nat → Option Camera) (i : Nat)
    (step : (Nat → Option Camera) → Nat → (Nat → Option Camera))
    (hstep : ∀ imgs j, imgs i = images i → step imgs j i = images i) :
    ∀ (l : List Nat) (imgs : Nat → Option Camera), imgs i = images i →
      (l.foldl step imgs) i = images i := by
  intro l
  induction l with
  | nil => exact fun imgs h => h
  | cons j t ih => exact fun imgs h => ih _ (hstep imgs j h)

/-- A `loadCameraImages` pass skips a locked slot that already shows an image. -/
theorem loadCameraImages_locked_slot (success : Nat → Camera → Bool)
    (st : OuluWebCams) (i : Nat) (hlock : st.lockedCameras.contains i = true)
    (himg : (st.currentImages i).isSome = true) :
    loadCameraImages success st i = st.currentImages i := by
  unfold loadCameraImages
  refine foldl_slot_invariant st.currentImages i _ ?_ _ st.currentImages rfl
  intro imgs j h
  unfold loadSlot
  by_cases hj : j = i
  · subst hj
    rw [if_pos ⟨hlock, h ▸ himg⟩]
    exact h
  · have hne : i ≠ j := fun e => hj e.symm
    by_cases hcond : st.lockedCameras.contains j = true ∧ (imgs j).isSome = true
    · rw [if_pos hcond]
      exact h
    · rw [if_neg hcond]
      cases hget : (getFilteredCameras st.config st.cameras).get?
          ((st.currentCycleIndex + j) % (getFilteredCameras st.config st.cameras).length) with
      | none => simp only [hget]; exact h
      | some camera =>
        simp only [hget]
        by_cases hs : success j camera = true
        · rw [if_pos hs, Function.update_noteq hne]
          exact h
        · rw [if_neg hs]
          exact h

/-- An `updateCameraImages` pass never reloads a locked slot. -/
theorem updateCameraImages_locked_slot (success : Nat → Camera → Bool)
    (st : OuluWebCams) (i : Nat) (hlock : st.lockedCameras.contains i = true) :
    updateCameraImages success st i = st.currentImages i := by
  unfold updateCameraImages
  refine foldl_slot_invariant st.currentImages i _ ?_ _ st.currentImages rfl
  intro imgs j h
  unfold updateSlot
  by_cases hj : j = i
  · subst hj
    cases hcur : imgs j with
    | none => simp only [hcur]; exact hcur ▸ h
    | some currentCamera =>
      simp only [hcur]
      rw [if_pos hlock]
      exact h
  · have hne : i ≠ j := fun e => hj e.symm
    cases hcur : imgs j with
    | none => simp only [hcur]; exact h
    | some currentCamera =>
      simp only [hcur]
      by_cases hl : st.lockedCameras.contains j = true
      · rw [if_pos hl]
        exact h
      · rw [if_neg hl]
        cases hfind : st.cameras.find?
            (fun c => c.presetId == currentCamera.presetId) with
        | none => simp only [hfind]; exact h
        | some updatedCamera =>
          simp only [hfind]
          by_cases hs : success j updatedCamera = true
          · rw [if_pos hs, Function.update_noteq hne]
            exact h
          · rw [if_neg hs]
            exact h

/-- C8: locking freezes a slot — for a slot `i` in `lockedCameras` that already
holds an image, `loadCameraImages` leaves `currentImages[i]` unchanged,
`updateCameraImages` never reloads it, and a full `cycleCameras` step keeps the
same camera displayed in that slot. -/
theorem lockedSlots_frozen (success : Nat → Camera → Bool) (st : OuluWebCams)
    (i : Nat) (hlock : st.lockedCameras.contains i = true)
    (himg : (st.currentImages i).isSome = true) :
    loadCameraImages success st i = st.currentImages i
    ∧ updateCameraImages success st i = st.currentImages i
    ∧ (cycleCameras success st).currentImages i = st.currentImages i := by
  refine ⟨loadCameraImages_locked_slot success st i hlock himg,
    updateCameraImages_locked_slot success st i hlock, ?_⟩
  unfold cycleCameras
  by_cases hlen : (getFilteredCameras st.config st.cameras).length = 0
  · rw [if_pos hlen]
  · rw [if_neg hlen]
    exact loadCameraImages_locked_slot success _ i hlock himg

/-- Camera shown in the locked slot of the C8 witness. -/
def c8camShown : Camera :=
  { presetId := "C0155203", presentationName := "Shown", imageUrl := "u1",
    measuredTime := 5000, stationName := "S", cameraId := "C01552",
    lat := 65, lon := 25, municipality := "Oulu", age := "0m ago" }

/-- A different camera available in the list of the C8 witness. -/
def c8camOther : Camera :=
  { presetId := "C0155204", presentationName := "Other", imageUrl := "u2",
    measuredTime := 6000, stationName := "S", cameraId := "C01552",
    lat := 65, lon := 25, municipality := "Oulu", age := "0m ago" }

/-- Controller state for the C8 witness: slot 0 is locked and shows a camera,
while a different camera is first in the available list. -/
def c8st : OuluWebCams :=
  { cameras := [c8camOther], allCameras := [c8camOther],
    currentImages := fun n => if n = 0 then some c8camShown else none,
    currentCycleIndex := 0, lockedCameras := [0], config := c3cfgAll }

/-- C8 witness: the locked slot 0 keeps its image through an image load pass,
a periodic refresh pass and a cycle step. -/
theorem lockedSlots_frozen_witness :
    loadCameraImages (fun _ _ => true) c8st 0 = c8st.currentImages 0
    ∧ updateCameraImages (fun _ _ => true) c8st 0 = c8st.currentImages 0
    ∧ (cycleCameras (fun _ _ => true) c8st).currentImages 0 =
        c8st.currentImages 0 :=
  lockedSlots_frozen (fun _ _ => true) c8st 0 (by decide) (by decide)

/-! ## C2 -/

/-- A feature whose geometry `type` is `'Polygon'` or `'MultiPolygon'` — the
only features the lookup loop tests. -/
def isPolygonal (f : Feature) : Prop :=
  f.geometry = some GeometryType.Polygon ∨ f.geometry = some GeometryType.MultiPolygon

/-- The lookup loop walks past a prefix of features none of which matches:
non-polygonal ones are skipped, polygonal ones answer `ok false`. -/
theorem municipalityLookupLoop_skip
    (turfInside : Int → Int → Feature → Except Unit Bool) (lat lon : Int)
    (pre rest : List Feature)
    (hpre : ∀ g ∈ pre, isPolygonal g → turfInside lat lon g = Except.ok false) :
    municipalityLookupLoop turfInside lat lon (pre ++ rest) =
      municipalityLookupLoop turfInside lat lon rest := by
  induction pre with
  | nil => rfl
  | cons g t ih =>
    have hg := hpre g (List.mem_cons_self g t)
    have ht := ih fun x hx => hpre x (List.mem_cons_of_mem g hx)
    rw [List.cons_append]
    cases hgeo : g.geometry with
    | none => simp [municipalityLookupLoop, hgeo, ht]
    | some gt =>
      cases gt with
      | Polygon =>
        have := hg (Or.inl hgeo)
        simp [municipalityLookupLoop, hgeo, this, ht]
      | MultiPolygon =>
        have := hg (Or.inr hgeo)
        simp [municipalityLookupLoop, hgeo, this, ht]
      | Other => simp [municipalityLookupLoop, hgeo, ht]

/-- The lookup loop stops with the head feature when it is polygonal and the
Turf oracle answers `ok true`. -/
theorem municipalityLookupLoop_found
    (turfInside : Int → Int → Feature → Except Unit Bool) (lat lon : Int)
    (f : Feature) (fs : List Feature) (hf : isPolygonal f)
    (htrue : turfInside lat lon f = Except.ok true) :
    municipalityLookupLoop turfInside lat lon (f :: fs) = Except.ok (some f) := by
  rcases hf with h | h <;> simp [municipalityLookupLoop, h, htrue]

/-- The lookup loop propagates a Turf exception raised at the head feature. -/
theorem municipalityLookupLoop_throw
    (turfInside : Int → Int → Feature → Except Unit Bool) (lat lon : Int)
    (f : Feature) (fs : List Feature) (hf : isPolygonal f) (e : Unit)
    (herr : turfInside lat lon f = Except.error e) :
    municipalityLookupLoop turfInside lat lon (f :: fs) = Except.error e := by
  rcases hf with h | h <;> simp [municipalityLookupLoop, h, herr]

/-- C2 (amended): municipality lookup — `getMunicipalityForCamera` returns
`'Unknown'` when `municipalityData` is null; when the first containing
polygonal feature (everything before it not containing the point) has a
non-empty `nimi`, it returns that `nimi`; it returns `'Unknown'` when that
feature's `nimi` is absent **or the empty string** (the `|| 'Unknown'`
fallback), when no feature contains the point, and when the Turf library
throws at the first feature it cannot skip. -/
theorem getMunicipalityForCamera_spec
    (turfInside : Int → Int → Feature → Except Unit Bool) (lat lon : Int) :
    getMunicipalityForCamera turfInside lat lon none = "Unknown"
    ∧ (∀ pre f post,
        (∀ g ∈ pre, isPolygonal g → turfInside lat lon g = Except.ok false) →
        isPolygonal f → turfInside lat lon f = Except.ok true →
        (∀ s, f.nimi = some s → s ≠ "" →
          getMunicipalityForCamera turfInside lat lon (some (pre ++ f :: post)) = s)
        ∧ ((f.nimi = none ∨ f.nimi = some "") →
          getMunicipalityForCamera turfInside lat lon (some (pre ++ f :: post)) =
            "Unknown"))
    ∧ (∀ features,
        (∀ g ∈ features, isPolygonal g → turfInside lat lon g = Except.ok false) →
        getMunicipalityForCamera turfInside lat lon (some features) = "Unknown")
    ∧ (∀ pre f post e,
        (∀ g ∈ pre, isPolygonal g → turfInside lat lon g = Except.ok false) →
        isPolygonal f → turfInside lat lon f = Except.error e →
        getMunicipalityForCamera turfInside lat lon (some (pre ++ f :: post)) =
          "Unknown") := by
  refine ⟨rfl, fun pre f post hpre hf htrue => ?_, fun features hall => ?_,
    fun pre f post e hpre hf herr => ?_⟩
  · have hloop : municipalityLookupLoop turfInside lat lon (pre ++ f :: post) =
        Except.ok (some f) := by
      rw [municipalityLookupLoop_skip turfInside lat lon pre (f :: post) hpre]
      exact municipalityLookupLoop_found turfInside lat lon f post hf htrue
    constructor
    · intro s hs hne
      simp [getMunicipalityForCamera, hloop, hs, hne]
    · rintro (hn | hn) <;> simp [getMunicipalityForCamera, hloop, hn]
  · have hloop : municipalityLookupLoop turfInside lat lon features =
        Except.ok none := by
      have := municipalityLookupLoop_skip turfInside lat lon features [] hall
      rw [List.append_nil] at this
      exact this
    simp [getMunicipalityForCamera, hloop]
  · have hloop : municipalityLookupLoop turfInside lat lon (pre ++ f :: post) =
        Except.error e := by
      rw [municipalityLookupLoop_skip turfInside lat lon pre (f :: post) hpre]
      exact municipalityLookupLoop_throw turfInside lat lon f post hf e herr
    simp [getMunicipalityForCamera, hloop]

/-- Turf oracle for the C2 counterexample and witness: the point lies in every
polygon. -/
def c2turfYes : Int → Int → Feature → Except Unit Bool := fun _ _ _ => Except.ok true

/-- A polygonal feature whose `nimi` property is present but empty. -/
def c2featureEmptyNimi : Feature :=
  { geometry := some GeometryType.Polygon, nimi := some "" }

/-- C2 counterexample: the claim says the lookup returns "the nimi property of
the first GeoJSON feature whose geometry contains the point", and lists
`'Unknown'` only for a null data set, no containing feature, an absent `nimi`,
or a Turf throw. Here the first (and only) feature is polygonal, contains the
point, and *has* a `nimi` property — the empty string — yet the code returns
`'Unknown'`, not that `nimi` value. -/
theorem getMunicipalityForCamera_emptyNimi_counterexample :
    c2featureEmptyNimi.geometry = some GeometryType.Polygon
    ∧ c2turfYes 0 0 c2featureEmptyNimi = Except.ok true
    ∧ c2featureEmptyNimi.nimi = some ""
    ∧ getMunicipalityForCamera c2turfYes 0 0 (some [c2featureEmptyNimi]) = "Unknown"
    ∧ "Unknown" ≠ "" := by
  exact ⟨rfl, rfl, rfl, rfl, by decide⟩

/-- A non-polygonal feature (skipped by the loop) for the C2 witness. -/
def c2featureSkipped : Feature := { geometry := none, nimi := some "Skipped" }

/-- A polygonal feature named Oulu for the C2 witness. -/
def c2featureOulu : Feature :=
  { geometry := some GeometryType.MultiPolygon, nimi := some "Oulu" }

/-- A polygonal feature with no `nimi` property for the C2 witness. -/
def c2featureNoNimi : Feature :=
  { geometry := some GeometryType.Polygon, nimi := none }

/-- Turf oracle answering `ok false` everywhere, for the C2 witness. -/
def c2turfNo : Int → Int → Feature → Except Unit Bool := fun _ _ _ => Except.ok false

/-- Turf oracle that always throws, for the C2 witness. -/
def c2turfThrow : Int → Int → Feature → Except Unit Bool :=
  fun _ _ _ => Except.error ()

/-- C2 witness: all four fallback cases and the successful case evaluated on
concrete features and oracles. -/
theorem getMunicipalityForCamera_spec_witness :
    getMunicipalityForCamera c2turfYes 0 0 none = "Unknown"
    ∧ getMunicipalityForCamera c2turfYes 0 0
        (some [c2featureSkipped, c2featureOulu]) = "Oulu"
    ∧ getMunicipalityForCamera c2turfYes 0 0
        (some [c2featureSkipped, c2featureNoNimi]) = "Unknown"
    ∧ getMunicipalityForCamera c2turfNo 0 0
        (some [c2featureSkipped, c2featureOulu]) = "Unknown"
    ∧ getMunicipalityForCamera c2turfThrow 0 0
        (some [c2featureOulu, c2featureNoNimi]) = "Unknown" := by
  have hskip : ∀ g ∈ [c2featureSkipped], isPolygonal g →
      c2turfYes 0 0 g = Except.ok false := by
    intro g hg hp
    simp only [List.mem_singleton] at hg
    subst hg
    rcases hp with h | h <;> exact absurd h (by decide)
  have h1 := (getMunicipalityForCamera_spec c2turfYes 0 0).1
  have h2 := ((getMunicipalityForCamera_spec c2turfYes 0 0).2.1
    [c2featureSkipped] c2featureOulu [] hskip (Or.inr rfl) rfl).1
    "Oulu" rfl (by decide)
  have h3 := ((getMunicipalityForCamera_spec c2turfYes 0 0).2.1
    [c2featureSkipped] c2featureNoNimi [] hskip (Or.inl rfl) rfl).2
    (Or.inl rfl)
  have h4 := (getMunicipalityForCamera_spec c2turfNo 0 0).2.2.1
    [c2featureSkipped, c2featureOulu] (fun g _ _ => rfl)
  have h5 := (getMunicipalityForCamera_spec c2turfThrow 0 0).2.2.2
    [] c2featureOulu [c2featureNoNimi] ()
    (fun g hg _ => absurd hg (List.not_mem_nil g)) (Or.inr rfl) rfl
  exact ⟨h1, h2, h3, h4, h5⟩

/-! ## C5 -/

/-- Folding the Set-insertion step keeps the accumulator duplicate-free. -/
theorem setDedup_foldl_nodup (l : List String) :
    ∀ acc : List String, acc.Nodup →
      (l.foldl (fun acc x => if x ∈ acc then acc else acc ++ [x]) acc).Nodup := by
  induction l with
  | nil => exact fun acc h => h
  | cons x t ih =>
    intro acc h
    rw [List.foldl_cons]
    by_cases hx : x ∈ acc
    · rw [if_pos hx]
      exact ih acc h
    · rw [if_neg hx]
      refine ih (acc ++ [x]) ?_
      rw [List.nodup_append]
      refine ⟨h, List.nodup_singleton x, ?_⟩
      intro a ha ha'
      rw [List.mem_singleton] at ha'
      exact hx (ha' ▸ ha)

/-- `[...new Set(xs)]` never holds duplicates. -/
theorem setDedup_nodup (l : List String) : (setDedup l).Nodup :=
  setDedup_foldl_nodup l [] List.nodup_nil

/-- C5 (amended): the selector option lists built by `populateSelectors` from
any camera list contain no duplicate names — `[...new Set(...)]` removes
duplicates and sorting only permutes. (The claim's other half fails:
`processCameras` performs no `presetId` deduplication of `this.cameras`; see
the counterexample.) -/
theorem populateSelectors_nodup (cameras : List Camera) :
    (municipalityOptions cameras).Nodup ∧ (stationOptions cameras).Nodup := by
  constructor
  · exact (List.perm_insertionSort (fun a b => a ≤ b)
      (setDedup (cameras.map (·.municipality)))).nodup_iff.mpr
      (setDedup_nodup (cameras.map (·.municipality)))
  · exact (List.perm_insertionSort (fun a b => a ≤ b)
      (setDedup (cameras.map (·.stationName)))).nodup_iff.mpr
      (setDedup_nodup (cameras.map (·.stationName)))

/-- Raw preset occurring twice in one station, for the C5 counterexample. -/
def c5preset : RawPreset :=
  { presetId := "C0160304", presentationName := "P", imageUrl := "u",
    measuredTime := 0 }

/-- Station whose preset list repeats the same preset, for the C5
counterexample. -/
def c5station : RawStation :=
  { cameraId := "C01603", name := "Station_A", lat := 0, lon := 0,
    presets := [c5preset, c5preset] }

/-- C5 counterexample: the claim says that after `processCameras` the stored
camera list contains no two entries with the same `presetId`; but
`processCameras` flattens presets without any `presetId` deduplication, so an
API response repeating one preset yields `this.cameras` with two entries of
the same `presetId`. -/
theorem processCameras_duplicate_counterexample :
    (processCameras c2turfNo 0 none true [c5station]).map (fun c => c.presetId) =
      ["C0160304", "C0160304"]
    ∧ ¬ ((processCameras c2turfNo 0 none true [c5station]).map
        (fun c => c.presetId)).Nodup := by
  exact ⟨by decide, by decide⟩

/-! ## C6 -/

/-- C6 (amended): the jQuery variant does persist state — its
`conditionalRender` success handler writes the filtered camera count to
`sessionStorage` under the key `camerasInOulu`, and leaves every other key
unchanged. (The class-based controller in `js.js` touches no browser storage;
its camera data lives only in the in-memory lists.) -/
theorem conditionalRenderStorage_spec (storage : String → Option String)
    (now : Int) (camerasInOulu_Clean : List RawPreset) :
    conditionalRenderStorage storage now camerasInOulu_Clean "camerasInOulu" =
      some (toString (camerasInOulu_noOld now camerasInOulu_Clean).length)
    ∧ ∀ k, k ≠ "camerasInOulu" →
        conditionalRenderStorage storage now camerasInOulu_Clean k = storage k := by
  constructor
  · exact Function.update_same "camerasInOulu" _ storage
  · intro k hk
    exact Function.update_noteq hk _ storage

/-- C6 counterexample: the claim says no operation writes to browser storage;
but running the jQuery variant's success handler on an empty `sessionStorage`
changes the `camerasInOulu` entry from absent to `"0"`. -/
theorem sessionStorage_write_counterexample :
    conditionalRenderStorage (fun _ => none) 0 [] "camerasInOulu" = some "0"
    ∧ (fun _ => (none : Option String)) "camerasInOulu" = none := by
  constructor
  · rw [(conditionalRenderStorage_spec (fun _ => none) 0 []).1]
    rfl
  · rfl

/-- C6 witness: the storage write evaluated on one stale and one fresh preset
(`now` four hours past the stale preset's time): the stored count is `"1"`,
and an unrelated key is untouched. -/
theorem conditionalRenderStorage_spec_witness :
    conditionalRenderStorage (fun _ => none) 14400000 [c1preset,
      { presetId := "old", presentationName := "P", imageUrl := "u",
        measuredTime := 0 }] "camerasInOulu" = some "1"
    ∧ conditionalRenderStorage (fun _ => none) 14400000 [c1preset,
      { presetId := "old", presentationName := "P", imageUrl := "u",
        measuredTime := 0 }] "otherKey" = none := by
  constructor
  · rw [(conditionalRenderStorage_spec (fun _ => none) 14400000 [c1preset,
      { presetId := "old", presentationName := "P", imageUrl := "u",
        measuredTime := 0 }]).1]
    decide
  · exact (conditionalRenderStorage_spec (fun _ => none) 14400000 [c1preset,
      { presetId := "old", presentationName := "P", imageUrl := "u",
        measuredTime := 0 }]).2 "otherKey" (by decide)

/-! ## C7 -/

/-- C7 counterexample: the claim says all externally fetched data comes from a
single HTTP endpoint and initialization issues one data request; but `init()`
issues two — the municipality GeoJSON fetch and the camera API fetch — to two
distinct URLs. -/
theorem initDataFetches_counterexample :
    initDataFetches.length = 2
    ∧ initDataFetches.length ≠ 1
    ∧ municipalityDataUrl ≠ camerasApiUrl := by
  exact ⟨rfl, by decide, by decide⟩

/-- C7 (amended): initialization issues exactly two data requests, to two
distinct endpoints — the static municipality-boundary GeoJSON and the traffic
camera GraphQL API; camera data itself comes only from the single API
endpoint. -/
theorem initDataFetches_spec :
    initDataFetches.length = 2
    ∧ municipalityDataUrl ≠ camerasApiUrl
    ∧ initDataFetches = [municipalityDataUrl, camerasApiUrl]
    ∧ (∀ u ∈ initDataFetches, u = municipalityDataUrl ∨ u = camerasApiUrl) := by
  refine ⟨rfl, by decide, rfl, ?_⟩
  intro u hu
  simp only [initDataFetches, List.mem_cons, List.not_mem_nil, or_false] at hu
  exact hu

/-- C7 witness: the two fetch URLs instantiated — the GeoJSON URL is one of
the fetched endpoints. -/
theorem initDataFetches_spec_witness :
    initDataFetches.length = 2
    ∧ (municipalityDataUrl = municipalityDataUrl
        ∨ municipalityDataUrl = camerasApiUrl) :=
  ⟨initDataFetches_spec.1,
    initDataFetches_spec.2.2.2 municipalityDataUrl (by decide)⟩
